import Mathlib

/-!
Shallow embedding of the "transform by Q" job orchestrator
(`packages/core/src/codewhisperer/commands/startTransformByQ.ts`) and of the
boundary operations its tests exercise
(`packages/core/src/test/codewhisperer/commands/transformByQ.test.ts`).

Pure functions of the source become Lean functions; the process-wide mutable
`transformByQState`, the `sessionPlanProgress` map and the `sessionJobHistory`
array become explicit state records threaded through each operation; a thrown
exception becomes an explicit `Option`/outcome field; user-facing notifications
and remote calls become event lists so that ordering and absence are provable.

Operations whose bodies are not part of the two embedded files (the
`transformByQState` accessors from `models/model`, `getHeadersObj` / `stopJob` /
`throwIfCancelled` from `transformApiHandler`, `encodeHTML` from
`textUtilities`, and the message constants) are modelled from the
specification's words; each such definition carries a doc comment saying so.
-/

/-- Per-step coarse progress, the values of the `sessionPlanProgress` map:
`StepProgress.Pending | Succeeded | Failed` (from `models/model`). -/
inductive StepProgress where
  | Pending
  | Succeeded
  | Failed
  deriving DecidableEq

/-- Lifecycle status of the single process-wide job state
(spec section 3, `JobState.status`). -/
inductive TransformByQStatus where
  | NotStarted
  | Running
  | Succeeded
  | PartiallySucceeded
  | Failed
  | Cancelled
  deriving DecidableEq

/-- Modelled from the spec: the fields of the process-wide `transformByQState`
singleton (spec section 3, JobState) that the embedded orchestrator code reads
or writes.  `models/model.ts` itself is not among the embedded files. -/
structure TransformByQState where
  status : TransformByQStatus
  jobId : String
  projectName : String
  jobFailureErrorMessage : String
  jobFailureMetadata : String
  payloadFilePath : String
  deriving DecidableEq

/-- Modelled from the spec: `transformByQState.isRunning()` tests whether the
lifecycle status is `Running`. -/
def TransformByQState.isRunning (st : TransformByQState) : Bool :=
  decide (st.status = TransformByQStatus.Running)

/-- Modelled from the spec: `transformByQState.isCancelled()` tests whether the
lifecycle status is `Cancelled`. -/
def TransformByQState.isCancelled (st : TransformByQState) : Bool :=
  decide (st.status = TransformByQStatus.Cancelled)

/-- Modelled from the spec: `transformByQState.isSucceeded()`. -/
def TransformByQState.isSucceeded (st : TransformByQState) : Bool :=
  decide (st.status = TransformByQStatus.Succeeded)

/-- Modelled from the spec: `transformByQState.isPartiallySucceeded()`. -/
def TransformByQState.isPartiallySucceeded (st : TransformByQState) : Bool :=
  decide (st.status = TransformByQStatus.PartiallySucceeded)

/-- Modelled from the spec: `transformByQState.setToRunning()` sets the status. -/
def TransformByQState.setToRunning (st : TransformByQState) : TransformByQState :=
  { st with status := TransformByQStatus.Running }

/-- Modelled from the spec: `transformByQState.setToCancelled()` sets the status. -/
def TransformByQState.setToCancelled (st : TransformByQState) : TransformByQState :=
  { st with status := TransformByQStatus.Cancelled }

/-- Modelled from the spec: `transformByQState.setToFailed()` sets the status. -/
def TransformByQState.setToFailed (st : TransformByQState) : TransformByQState :=
  { st with status := TransformByQStatus.Failed }

/-- Modelled from the spec: `transformByQState.setToSucceeded()` sets the status. -/
def TransformByQState.setToSucceeded (st : TransformByQState) : TransformByQState :=
  { st with status := TransformByQStatus.Succeeded }

/-- Modelled from the spec: `transformByQState.setToPartiallySucceeded()` sets
the status. -/
def TransformByQState.setToPartiallySucceeded (st : TransformByQState) : TransformByQState :=
  { st with status := TransformByQStatus.PartiallySucceeded }

/-- Modelled from the spec: `transformByQState.setJobId(id)`. -/
def TransformByQState.setJobId (st : TransformByQState) (id : String) : TransformByQState :=
  { st with jobId := id }

/-- Modelled from the spec: `transformByQState.setJobFailureErrorMessage(msg)`. -/
def TransformByQState.setJobFailureErrorMessage (st : TransformByQState) (msg : String) :
    TransformByQState :=
  { st with jobFailureErrorMessage := msg }

/-- Modelled from the spec: `transformByQState.getStatus()` returns the status
as a string (the test asserts `getStatus() = 'Cancelled'` after cancellation). -/
def TransformByQStatus.toStatusText : TransformByQStatus → String
  | TransformByQStatus.NotStarted => "NotStarted"
  | TransformByQStatus.Running => "Running"
  | TransformByQStatus.Succeeded => "Succeeded"
  | TransformByQStatus.PartiallySucceeded => "PartiallySucceeded"
  | TransformByQStatus.Failed => "Failed"
  | TransformByQStatus.Cancelled => "Cancelled"

/-- Modelled from the spec: `CodeWhispererConstants.failedToStartJobMessage`
(the constants module is not among the embedded files; only the message's
identity matters to the orchestrator, never its exact wording). -/
def failedToStartJobMessage : String :=
  "Amazon Q could not begin the transformation"

/-- Modelled from the spec: `CodeWhispererConstants.failedToCompleteJobMessage`. -/
def failedToCompleteJobMessage : String :=
  "Amazon Q could not complete the transformation"

/-- Modelled from the spec: `CodeWhispererConstants.transformByQCompletedMessage`. -/
def transformByQCompletedMessage : String :=
  "Amazon Q successfully transformed your code"

/-- Modelled from the spec: `CodeWhispererConstants.transformByQPartiallyCompletedMessage`. -/
def transformByQPartiallyCompletedMessage : String :=
  "Amazon Q partially transformed your code"

/-- Modelled from the spec: `CodeWhispererConstants.transformByQCancelledMessage`. -/
def transformByQCancelledMessage : String :=
  "You cancelled the transformation"

/-- Modelled from the spec: `CodeWhispererConstants.errorStoppingJobMessage`. -/
def errorStoppingJobMessage : String :=
  "Amazon Q could not stop the transformation"

/-- The `sessionPlanProgress` map: the four named steps of a run
(`startTransformByQ.ts`, `setTransformationToRunningState` initialises all four
keys). -/
structure SessionPlanProgress where
  startJob : StepProgress
  buildCode : StepProgress
  generatePlan : StepProgress
  transformCode : StepProgress
  deriving DecidableEq

/-- One element of the `sessionJobHistory` array
(`startTransformByQ.ts`, line 59): `{timestamp, module, status, duration, id}`. -/
structure HistoryEntry where
  timestamp : String
  module : String
  status : String
  duration : String
  id : String
  deriving DecidableEq

/-- Embeds `processHistory` (`startTransformByQ.ts`, lines 419-431): the
incoming `sessionJobHistory` is overwritten with the empty array ("reset job
history; only storing the last run for now"), `copyState` is built from the
current run's fields and pushed, and the array is returned. -/
def processHistory (sessionJobHistory : List HistoryEntry)
    (startTime module status duration id : String) : List HistoryEntry :=
  let sessionJobHistory : List HistoryEntry := []
  let copyState : HistoryEntry :=
    { timestamp := startTime, module := module, status := status, duration := duration, id := id }
  sessionJobHistory ++ [copyState]

/-- Modelled from the spec: `getHeadersObj(sha256, kmsKeyArn)` from
`transformApiHandler` (not among the embedded files; the two header tests at
lines 194-212 of the test file pin both branches).  Headers are an association
list so that absence of a key is expressible: always `x-amz-checksum-sha256`
and `Content-Type: application/zip`; the two server-side-encryption headers are
added only when `kmsKeyArn` is non-empty. -/
def getHeadersObj (sha256 kmsKeyArn : String) : List (String × String) :=
  if kmsKeyArn = "" then
    [("x-amz-checksum-sha256", sha256),
     ("Content-Type", "application/zip")]
  else
    [("x-amz-checksum-sha256", sha256),
     ("Content-Type", "application/zip"),
     ("x-amz-server-side-encryption", "aws:kms"),
     ("x-amz-server-side-encryption-aws-kms-key-id", kmsKeyArn)]

/-- Outcome of one call to `stopJob`: the remote
`codeModernizerStopCodeTransformation` requests it issued (by job id), and
whether the call threw to its caller. -/
structure StopJobResult where
  remoteCalls : List String
  threw : Bool
  deriving DecidableEq

/-- Modelled from the spec: `stopJob(jobId)` from `transformApiHandler` (not
among the embedded files; the two stop tests at lines 139-149 of the test file
pin both branches).  With an empty `jobId` it is a no-op: no remote call, no
throw.  With a non-empty `jobId` it issues exactly one remote stop request with
that id; `remoteStopFails` says whether that remote request fails, in which
case `stopJob` rethrows to its caller. -/
def stopJob (jobId : String) (remoteStopFails : Bool) : StopJobResult :=
  if jobId = "" then
    { remoteCalls := [], threw := false }
  else
    { remoteCalls := [jobId], threw := remoteStopFails }

/-- The shared mutable session: the job state singleton, the step-progress map
and the run-history array. -/
structure SessionState where
  st : TransformByQState
  planProgress : SessionPlanProgress
  sessionJobHistory : List HistoryEntry
  deriving DecidableEq

/-- Result of `postTransformationJob`: the updated session plus the user-facing
notifications it showed. -/
structure PostTransformationResult where
  session : SessionState
  notifications : List String
  deriving DecidableEq

/-- Embeds `postTransformationJob` (`startTransformByQ.ts`, lines 326-386):
each of the four step-progress entries that is not `Succeeded` is forced to
`Failed`; `sessionJobHistory` is replaced via `processHistory` with the current
run's record; an information message is shown on the succeeded and partially
succeeded paths.  (The chat-controller event, the telemetry emission and the
payload-file deletion are external effects with no bearing on session state.)
`startTime` and `durationString` stand for the formatted telemetry start time
and latency. -/
def postTransformationJob (s : SessionState) (startTime durationString : String) :
    PostTransformationResult :=
  let pp := s.planProgress
  let pp := if pp.startJob ≠ StepProgress.Succeeded then
    { pp with startJob := StepProgress.Failed } else pp
  let pp := if pp.buildCode ≠ StepProgress.Succeeded then
    { pp with buildCode := StepProgress.Failed } else pp
  let pp := if pp.generatePlan ≠ StepProgress.Succeeded then
    { pp with generatePlan := StepProgress.Failed } else pp
  let pp := if pp.transformCode ≠ StepProgress.Succeeded then
    { pp with transformCode := StepProgress.Failed } else pp
  let hist := processHistory s.sessionJobHistory startTime s.st.projectName
    s.st.status.toStatusText durationString s.st.jobId
  let notifications :=
    if s.st.isSucceeded then [transformByQCompletedMessage]
    else if s.st.isPartiallySucceeded then [transformByQPartiallyCompletedMessage]
    else []
  { session := { s with planProgress := pp, sessionJobHistory := hist },
    notifications := notifications }

/-- Result of `finalizeTransformationJob`: the error it threw (if any; state
updates made before the throw persist, as the TypeScript mutations are on the
shared singleton), the job state and the step-progress map. -/
structure FinalizeResult where
  thrownError : Option String
  st : TransformByQState
  planProgress : SessionPlanProgress
  deriving DecidableEq

/-- Embeds `finalizeTransformationJob(status)` (`startTransformByQ.ts`, lines
260-281): when `status` is neither `COMPLETED` nor `PARTIALLY_COMPLETED`, the
`transformCode` step is set to `Failed`, the failure message is recorded and
`Error('Job was not successful nor partially successful')` is thrown; otherwise
`setToSucceeded()` runs, then `setToPartiallySucceeded()` when the status is
`PARTIALLY_COMPLETED`, and the `transformCode` step is set to `Succeeded`. -/
def finalizeTransformationJob (status : String) (st : TransformByQState)
    (pp : SessionPlanProgress) : FinalizeResult :=
  if ¬(status = "COMPLETED" ∨ status = "PARTIALLY_COMPLETED") then
    { thrownError := some "Job was not successful nor partially successful",
      st := st.setJobFailureErrorMessage failedToCompleteJobMessage,
      planProgress := { pp with transformCode := StepProgress.Failed } }
  else
    let st := st.setToSucceeded
    let st := if status = "PARTIALLY_COMPLETED" then st.setToPartiallySucceeded else st
    { thrownError := none, st := st,
      planProgress := { pp with transformCode := StepProgress.Succeeded } }

/-- Result of `transformationJobErrorHandler`: the job state and the
user-facing error notifications shown. -/
structure ErrorHandlerResult where
  st : TransformByQState
  notifications : List String
  deriving DecidableEq

/-- Embeds `transformationJobErrorHandler(error)` (`startTransformByQ.ts`,
lines 388-406): when the job state is not already cancelled, `setToFailed()`
runs and one error message is shown, the recorded failure message with the
failure metadata appended (after a space) exactly when the metadata is
non-empty; when the state is cancelled, nothing is shown and the state is left
alone.  (The trailing log line is an external effect.) -/
def transformationJobErrorHandler (st : TransformByQState) : ErrorHandlerResult :=
  if ¬ st.isCancelled then
    let st := st.setToFailed
    let displayedErrorMessage := st.jobFailureErrorMessage
    let displayedErrorMessage :=
      if st.jobFailureMetadata ≠ "" then
        displayedErrorMessage ++ " " ++ st.jobFailureMetadata
      else displayedErrorMessage
    { st := st, notifications := [displayedErrorMessage] }
  else
    { st := st, notifications := [] }

/-- One observable event of `stopTransformByQ`, in program order: a status
write, a remote stop request, or a user-facing message. -/
inductive StopEvent where
  | setStatus (s : TransformByQStatus)
  | remoteStopCall (jobId : String)
  | notify (msg : String)
  deriving DecidableEq

/-- Result of `stopTransformByQ`: the job state, the ordered observable events,
and whether the function threw to its caller. -/
structure StopTransformResult where
  st : TransformByQState
  events : List StopEvent
  threw : Bool
  deriving DecidableEq

/-- Embeds `stopTransformByQ(jobId)` (`startTransformByQ.ts`, lines 441-481):
only when the job state is `Running` does anything happen: `setToCancelled()`
runs first, then `stopJob(jobId)` is awaited inside a try/catch — on success
the cancelled message is shown, on failure the error-stopping message is shown
and the exception is swallowed.  Outside the `Running` state the body is
skipped entirely.  (The telemetry emission and the context-variable commands
are external effects.)  `remoteStopFails` says whether the remote stop request
fails. -/
def stopTransformByQ (st : TransformByQState) (jobId : String) (remoteStopFails : Bool) :
    StopTransformResult :=
  if st.isRunning then
    let st := st.setToCancelled
    let stopRes := stopJob jobId remoteStopFails
    let msg := if stopRes.threw then errorStoppingJobMessage else transformByQCancelledMessage
    { st := st,
      events := [StopEvent.setStatus TransformByQStatus.Cancelled] ++
        stopRes.remoteCalls.map StopEvent.remoteStopCall ++ [StopEvent.notify msg],
      threw := false }
  else
    { st := st, events := [], threw := false }

/-- One event of the orchestrator's linear sequence: a `throwIfCancelled`
check, or a piece of remote work named after the call performing it. -/
inductive OrchestratorEvent where
  | cancellationCheck
  | remoteCall (name : String)
  deriving DecidableEq

/-- Events of `preTransformationUploadCode` (`startTransformByQ.ts`, lines
177-198) in program order: `throwIfCancelled()`, then `zipCode` (local) and
`uploadPayload` (remote), then the post-upload sleep and a second
`throwIfCancelled()`. -/
def preTransformationUploadCodeEvents : List OrchestratorEvent :=
  [OrchestratorEvent.cancellationCheck,
   OrchestratorEvent.remoteCall "uploadPayload",
   OrchestratorEvent.cancellationCheck]

/-- Events of `startTransformationJob` (`startTransformByQ.ts`, lines 200-216)
in program order: the remote `startJob` call, then the post-start sleep and
`throwIfCancelled()`. -/
def startTransformationJobEvents : List OrchestratorEvent :=
  [OrchestratorEvent.remoteCall "startJob",
   OrchestratorEvent.cancellationCheck]

/-- Events of `pollTransformationStatusUntilPlanReady` (`startTransformByQ.ts`,
lines 218-244) in program order: the remote poll until the plan-generated
status set, the remote `getTransformationPlan` call, then `throwIfCancelled()`. -/
def pollTransformationStatusUntilPlanReadyEvents : List OrchestratorEvent :=
  [OrchestratorEvent.remoteCall "pollTransformationJob.planReady",
   OrchestratorEvent.remoteCall "getTransformationPlan",
   OrchestratorEvent.cancellationCheck]

/-- Events of `pollTransformationStatusUntilComplete` (`startTransformByQ.ts`,
lines 246-258): the remote poll until the download-ready status set. -/
def pollTransformationStatusUntilCompleteEvents : List OrchestratorEvent :=
  [OrchestratorEvent.remoteCall "pollTransformationJob.downloadReady"]

/-- Events of the `try` block of `startTransformByQ` (`startTransformByQ.ts`,
lines 140-175): the four step functions run in sequence. -/
def startTransformByQEvents : List OrchestratorEvent :=
  preTransformationUploadCodeEvents ++ startTransformationJobEvents ++
  pollTransformationStatusUntilPlanReadyEvents ++ pollTransformationStatusUntilCompleteEvents

/-- Runs an orchestrator event list under a cancellation request that becomes
observable at the `cancelAt`-th `throwIfCancelled` check (counted from `seen`):
checks numbered below `cancelAt` see a non-cancelled state and pass, every
later check sees the cancelled state and throws `TransformByQStoppedError`
(the test at lines 73-78 of the test file pins that a cancelled state makes
`throwIfCancelled` throw).  Returns the names of the remote calls actually
performed and whether the run aborted with the cancellation error. -/
def runWithCancellation : List OrchestratorEvent → Nat → Nat → List String × Bool
  | [], _, _ => ([], false)
  | OrchestratorEvent.cancellationCheck :: rest, cancelAt, seen =>
    if cancelAt ≤ seen then ([], true)
    else runWithCancellation rest cancelAt (seen + 1)
  | OrchestratorEvent.remoteCall n :: rest, cancelAt, seen =>
    let r := runWithCancellation rest cancelAt seen
    (n :: r.1, r.2)

/-- The remote calls performed by one run of `startTransformByQ`'s step
sequence when cancellation becomes observable at the `cancelAt`-th
`throwIfCancelled` check, and whether the run aborted with the cancellation
error. -/
def runStartTransformByQ (cancelAt : Nat) : List String × Bool :=
  runWithCancellation startTransformByQEvents cancelAt 0

/-- Modelled from the spec: one character of `encodeHTML` from
`shared/utilities/textUtilities` (not among the embedded files): the
HTML-significant characters are replaced by their character entities, every
other character is kept. -/
def encodeHTMLChar (c : Char) : List Char :=
  if c = '&' then ['&', 'a', 'm', 'p', ';']
  else if c = '<' then ['&', 'l', 't', ';']
  else if c = '>' then ['&', 'g', 't', ';']
  else [c]

/-- Modelled from the spec: `encodeHTML` from `shared/utilities/textUtilities`
(not among the embedded files) HTML-encodes a string character by character. -/
def encodeHTML (s : String) : String :=
  ⟨s.data.flatMap encodeHTMLChar⟩

/-- Holds when `c` is one of the characters `encodeHTML` rewrites. -/
def isHTMLSignificant (c : Char) : Prop :=
  c = '&' ∨ c = '<' ∨ c = '>'

instance (c : Char) : Decidable (isHTMLSignificant c) := by
  unfold isHTMLSignificant
  infer_instance

/-- Outcome of `startTransformationJob`: the job id returned to the caller, or
the message of the exception thrown. -/
inductive StartJobOutcome where
  | ok (jobId : String)
  | threw (msg : String)
  deriving DecidableEq

/-- Result of `startTransformationJob`: the outcome and the job state (state
updates made before a throw persist, as the TypeScript mutations are on the
shared singleton). -/
structure StartJobResult where
  outcome : StartJobOutcome
  st : TransformByQState
  deriving DecidableEq

/-- Embeds `startTransformationJob(uploadId)` (`startTransformByQ.ts`, lines
200-216): when the remote `startJob` call fails (`startJobFails`), the failure
message is recorded and `Error('Start job failed')` is thrown; otherwise the
HTML-encoded service job id is stored via `setJobId(encodeHTML(jobId))`, the
post-start `throwIfCancelled()` runs (throwing when the state was cancelled
during the sleep), and the raw, unencoded `jobId` is returned to the caller
for the subsequent polling calls.  `serviceJobId` stands for the identifier
the remote `startJob` call returned. -/
def startTransformationJob (st : TransformByQState) (startJobFails : Bool)
    (serviceJobId : String) : StartJobResult :=
  if startJobFails then
    { outcome := StartJobOutcome.threw "Start job failed",
      st := st.setJobFailureErrorMessage failedToStartJobMessage }
  else
    let st := st.setJobId (encodeHTML serviceJobId)
    if st.isCancelled then
      { outcome := StartJobOutcome.threw "TransformByQStoppedError", st := st }
    else
      { outcome := StartJobOutcome.ok serviceJobId, st := st }

/-! Theorems -/

/-- C1: for every `(checksum, kmsKeyArn)` pair, `getHeadersObj` returns a map
that always binds `x-amz-checksum-sha256` to the checksum and `Content-Type`
to `application/zip`, binds the two server-side-encryption headers (to
`aws:kms` and the ARN) iff `kmsKeyArn` is non-empty, and omits the encryption
keys entirely when `kmsKeyArn` is empty. -/
theorem getHeadersObj_spec (sha256 kmsKeyArn : String) :
    (getHeadersObj sha256 kmsKeyArn).lookup "x-amz-checksum-sha256" = some sha256 ∧
    (getHeadersObj sha256 kmsKeyArn).lookup "Content-Type" = some "application/zip" ∧
    (((getHeadersObj sha256 kmsKeyArn).lookup "x-amz-server-side-encryption" = some "aws:kms" ∧
      (getHeadersObj sha256 kmsKeyArn).lookup "x-amz-server-side-encryption-aws-kms-key-id" =
        some kmsKeyArn) ↔ kmsKeyArn ≠ "") ∧
    (kmsKeyArn = "" →
      (getHeadersObj sha256 kmsKeyArn).lookup "x-amz-server-side-encryption" = none ∧
      (getHeadersObj sha256 kmsKeyArn).lookup "x-amz-server-side-encryption-aws-kms-key-id" =
        none) := by
  by_cases hk : kmsKeyArn = ""
  · subst hk
    refine ⟨rfl, rfl, ?_, fun _ => ⟨rfl, rfl⟩⟩
    constructor
    · rintro ⟨h1, -⟩
      rw [show (getHeadersObj sha256 "").lookup "x-amz-server-side-encryption" =
        (none : Option String) from rfl] at h1
      cases h1
    · intro h
      exact absurd rfl h
  · rw [getHeadersObj, if_neg hk]
    exact ⟨rfl, rfl, ⟨fun _ => hk, fun _ => ⟨rfl, rfl⟩⟩, fun h => absurd h hk⟩

/-- C1 witness: the two branches at concrete inputs, via `getHeadersObj_spec`. -/
theorem getHeadersObj_spec_witness :
    (getHeadersObj "dummy-sha-256" "dummy-kms-key-arn").lookup "x-amz-server-side-encryption" =
      some "aws:kms" ∧
    (getHeadersObj "dummy-sha-256" "").lookup "x-amz-server-side-encryption" = none := by
  refine ⟨((getHeadersObj_spec "dummy-sha-256" "dummy-kms-key-arn").2.2.1.mpr (by decide)).1, ?_⟩
  exact ((getHeadersObj_spec "dummy-sha-256" "").2.2.2 rfl).1

/-- C2: `stopJob` with an empty job id issues no remote call and never throws;
with a non-empty job id it issues exactly one remote stop call carrying that
job id. -/
theorem stopJob_spec (jobId : String) (remoteStopFails : Bool) :
    (jobId = "" → stopJob jobId remoteStopFails = { remoteCalls := [], threw := false }) ∧
    (jobId ≠ "" → (stopJob jobId remoteStopFails).remoteCalls = [jobId]) := by
  constructor
  · intro h
    simp [stopJob, h]
  · intro h
    simp [stopJob, h]

/-- C2 witness: the two stop-job branches at the test file's inputs, via
`stopJob_spec`. -/
theorem stopJob_spec_witness :
    stopJob "" false = { remoteCalls := [], threw := false } ∧
    (stopJob "dummyId" false).remoteCalls = ["dummyId"] :=
  ⟨(stopJob_spec "" false).1 rfl, (stopJob_spec "dummyId" false).2 (by decide)⟩

/-- C3: for every prior history list and every run record, `processHistory`
returns exactly the one-element list holding the current run's record: history
is replaced, never appended to. -/
theorem processHistory_spec (sessionJobHistory : List HistoryEntry)
    (startTime module status duration id : String) :
    processHistory sessionJobHistory startTime module status duration id =
      [{ timestamp := startTime, module := module, status := status,
         duration := duration, id := id }] ∧
    (processHistory sessionJobHistory startTime module status duration id).length = 1 :=
  ⟨rfl, rfl⟩

/-- C4: after `postTransformationJob`, each of the four step-progress entries
equals `Succeeded` when it was `Succeeded` before and `Failed` otherwise; in
particular none is left `Pending`. -/
theorem postTransformationJob_steps_spec (s : SessionState) (startTime durationString : String) :
    ((postTransformationJob s startTime durationString).session.planProgress.startJob =
      if s.planProgress.startJob = StepProgress.Succeeded then StepProgress.Succeeded
      else StepProgress.Failed) ∧
    ((postTransformationJob s startTime durationString).session.planProgress.buildCode =
      if s.planProgress.buildCode = StepProgress.Succeeded then StepProgress.Succeeded
      else StepProgress.Failed) ∧
    ((postTransformationJob s startTime durationString).session.planProgress.generatePlan =
      if s.planProgress.generatePlan = StepProgress.Succeeded then StepProgress.Succeeded
      else StepProgress.Failed) ∧
    ((postTransformationJob s startTime durationString).session.planProgress.transformCode =
      if s.planProgress.transformCode = StepProgress.Succeeded then StepProgress.Succeeded
      else StepProgress.Failed) ∧
    (postTransformationJob s startTime durationString).session.planProgress.startJob ≠
      StepProgress.Pending ∧
    (postTransformationJob s startTime durationString).session.planProgress.buildCode ≠
      StepProgress.Pending ∧
    (postTransformationJob s startTime durationString).session.planProgress.generatePlan ≠
      StepProgress.Pending ∧
    (postTransformationJob s startTime durationString).session.planProgress.transformCode ≠
      StepProgress.Pending := by
  obtain ⟨st, pp, hist⟩ := s
  obtain ⟨a, b, c, d⟩ := pp
  cases a <;> cases b <;> cases c <;> cases d <;>
    simp [postTransformationJob]

/-- C5: `finalizeTransformationJob` on a status that is neither `COMPLETED` nor
`PARTIALLY_COMPLETED` marks `transformCode = Failed`, records the failure
message, throws the completion error and leaves the lifecycle status as it
was (so never a success state); on `COMPLETED` it throws nothing, sets the
status to `Succeeded` and `transformCode = Succeeded`; on `PARTIALLY_COMPLETED`
it throws nothing, sets the status to `PartiallySucceeded` and
`transformCode = Succeeded`. -/
theorem finalizeTransformationJob_spec (status : String) (st : TransformByQState)
    (pp : SessionPlanProgress) :
    (¬(status = "COMPLETED" ∨ status = "PARTIALLY_COMPLETED") →
      (finalizeTransformationJob status st pp).thrownError =
        some "Job was not successful nor partially successful" ∧
      (finalizeTransformationJob status st pp).planProgress.transformCode =
        StepProgress.Failed ∧
      (finalizeTransformationJob status st pp).st.jobFailureErrorMessage =
        failedToCompleteJobMessage ∧
      (finalizeTransformationJob status st pp).st.status = st.status) ∧
    (status = "COMPLETED" →
      (finalizeTransformationJob status st pp).thrownError = none ∧
      (finalizeTransformationJob status st pp).st.status = TransformByQStatus.Succeeded ∧
      (finalizeTransformationJob status st pp).planProgress.transformCode =
        StepProgress.Succeeded) ∧
    (status = "PARTIALLY_COMPLETED" →
      (finalizeTransformationJob status st pp).thrownError = none ∧
      (finalizeTransformationJob status st pp).st.status =
        TransformByQStatus.PartiallySucceeded ∧
      (finalizeTransformationJob status st pp).planProgress.transformCode =
        StepProgress.Succeeded) := by
  refine ⟨fun h => ?_, fun h => ?_, fun h => ?_⟩
  · simp [finalizeTransformationJob, h, TransformByQState.setJobFailureErrorMessage]
  · subst h
    simp [finalizeTransformationJob, TransformByQState.setToSucceeded,
      TransformByQState.setToPartiallySucceeded]
  · subst h
    simp [finalizeTransformationJob, TransformByQState.setToSucceeded,
      TransformByQState.setToPartiallySucceeded]

/-- C5 witness: the three finalization branches at concrete inputs, via
`finalizeTransformationJob_spec`. -/
theorem finalizeTransformationJob_spec_witness :
    (finalizeTransformationJob "FAILED"
      ⟨TransformByQStatus.Running, "", "", "", "", ""⟩
      ⟨StepProgress.Pending, StepProgress.Pending, StepProgress.Pending,
        StepProgress.Pending⟩).thrownError =
      some "Job was not successful nor partially successful" ∧
    (finalizeTransformationJob "COMPLETED"
      ⟨TransformByQStatus.Running, "", "", "", "", ""⟩
      ⟨StepProgress.Pending, StepProgress.Pending, StepProgress.Pending,
        StepProgress.Pending⟩).st.status = TransformByQStatus.Succeeded ∧
    (finalizeTransformationJob "PARTIALLY_COMPLETED"
      ⟨TransformByQStatus.Running, "", "", "", "", ""⟩
      ⟨StepProgress.Pending, StepProgress.Pending, StepProgress.Pending,
        StepProgress.Pending⟩).st.status = TransformByQStatus.PartiallySucceeded := by
  refine ⟨((finalizeTransformationJob_spec "FAILED" _ _).1 (by decide)).1, ?_, ?_⟩
  · exact ((finalizeTransformationJob_spec "COMPLETED" _ _).2.1 rfl).2.1
  · exact ((finalizeTransformationJob_spec "PARTIALLY_COMPLETED" _ _).2.2 rfl).2.1

/-- C6: the top-level error handler leaves a cancelled job state untouched and
shows no notification; on any other state it sets the status to `Failed` and
shows exactly one failure notification, the recorded failure message with the
failure metadata appended exactly when the metadata is non-empty. -/
theorem transformationJobErrorHandler_spec (st : TransformByQState) :
    (st.status = TransformByQStatus.Cancelled →
      transformationJobErrorHandler st = { st := st, notifications := [] }) ∧
    (st.status ≠ TransformByQStatus.Cancelled →
      (transformationJobErrorHandler st).st = st.setToFailed ∧
      (transformationJobErrorHandler st).notifications =
        [if st.jobFailureMetadata = "" then st.jobFailureErrorMessage
         else st.jobFailureErrorMessage ++ " " ++ st.jobFailureMetadata]) := by
  constructor
  · intro h
    simp [transformationJobErrorHandler, TransformByQState.isCancelled, h]
  · intro h
    by_cases hm : st.jobFailureMetadata = "" <;>
      simp [transformationJobErrorHandler, TransformByQState.isCancelled,
        TransformByQState.setToFailed, h, hm]

/-- C6 witness: both handler branches at concrete states, via
`transformationJobErrorHandler_spec`. -/
theorem transformationJobErrorHandler_spec_witness :
    transformationJobErrorHandler
        ⟨TransformByQStatus.Cancelled, "", "", "msg", "", ""⟩ =
      { st := ⟨TransformByQStatus.Cancelled, "", "", "msg", "", ""⟩, notifications := [] } ∧
    (transformationJobErrorHandler
        ⟨TransformByQStatus.Running, "", "", "msg", "meta", ""⟩).notifications =
      [if ("meta" : String) = "" then "msg" else "msg" ++ " " ++ "meta"] := by
  refine ⟨(transformationJobErrorHandler_spec _).1 rfl, ?_⟩
  exact ((transformationJobErrorHandler_spec
    ⟨TransformByQStatus.Running, "", "", "msg", "meta", ""⟩).2 (by decide)).2

/-- C7: requesting cancellation while `Running` sets the status to `Cancelled`
as the first observable event, before any remote stop call; the status is
`Cancelled` afterwards whether the remote stop succeeds or throws; the failure
of the best-effort stop is reported by a notification (the error-stopping
message) and never escalates as a thrown error. -/
theorem stopTransformByQ_running_spec (st : TransformByQState) (jobId : String)
    (remoteStopFails : Bool) (h : st.status = TransformByQStatus.Running) :
    (stopTransformByQ st jobId remoteStopFails).st.status = TransformByQStatus.Cancelled ∧
    (stopTransformByQ st jobId remoteStopFails).threw = false ∧
    (stopTransformByQ st jobId remoteStopFails).events =
      [StopEvent.setStatus TransformByQStatus.Cancelled] ++
      (if jobId = "" then [] else [StopEvent.remoteStopCall jobId]) ++
      [StopEvent.notify
        (if jobId ≠ "" ∧ remoteStopFails = true then errorStoppingJobMessage
         else transformByQCancelledMessage)] := by
  by_cases hj : jobId = "" <;> cases remoteStopFails <;>
    simp [stopTransformByQ, stopJob, TransformByQState.isRunning,
      TransformByQState.setToCancelled, h, hj]

/-- C7 witness: the test file's cancellation scenario (`Running` state, job id
`abc-123`) for a failing and a succeeding remote stop, via
`stopTransformByQ_running_spec`. -/
theorem stopTransformByQ_running_spec_witness :
    (stopTransformByQ ⟨TransformByQStatus.Running, "", "", "", "", ""⟩
      "abc-123" true).st.status = TransformByQStatus.Cancelled ∧
    (stopTransformByQ ⟨TransformByQStatus.Running, "", "", "", "", ""⟩
      "abc-123" false).st.status = TransformByQStatus.Cancelled ∧
    (stopTransformByQ ⟨TransformByQStatus.Running, "", "", "", "", ""⟩
      "abc-123" true).threw = false := by
  refine ⟨(stopTransformByQ_running_spec _ "abc-123" true rfl).1,
    (stopTransformByQ_running_spec _ "abc-123" false rfl).1,
    (stopTransformByQ_running_spec _ "abc-123" true rfl).2.1⟩

/-- C9: calling `stopTransformByQ` in any state other than `Running` changes
nothing: the state is returned unchanged, no event (remote stop call or
notification) happens, and nothing is thrown. -/
theorem stopTransformByQ_not_running_frame (st : TransformByQState) (jobId : String)
    (remoteStopFails : Bool) (h : st.status ≠ TransformByQStatus.Running) :
    stopTransformByQ st jobId remoteStopFails =
      { st := st, events := [], threw := false } := by
  simp [stopTransformByQ, TransformByQState.isRunning, h]

/-- C9 witness: a `NotStarted` and a `Cancelled` state are left untouched, via
`stopTransformByQ_not_running_frame`. -/
theorem stopTransformByQ_not_running_frame_witness :
    stopTransformByQ ⟨TransformByQStatus.NotStarted, "j", "p", "m", "d", "z"⟩ "abc-123" true =
      { st := ⟨TransformByQStatus.NotStarted, "j", "p", "m", "d", "z"⟩,
        events := [], threw := false } ∧
    stopTransformByQ ⟨TransformByQStatus.Cancelled, "", "", "", "", ""⟩ "" false =
      { st := ⟨TransformByQStatus.Cancelled, "", "", "", "", ""⟩,
        events := [], threw := false } :=
  ⟨stopTransformByQ_not_running_frame _ "abc-123" true (by decide),
   stopTransformByQ_not_running_frame _ "" false (by decide)⟩

/-- C8: in the orchestrator's step sequence each major remote step --
upload, job start, plan polling and completion polling -- is guarded by a
`throwIfCancelled` check that runs before the step's remote work: whenever
the cancellation becomes observable at or before the check guarding a step,
that step's remote calls are never performed and the run aborts with the
cancellation error; with no cancellation, all five remote calls run in
program order. -/
theorem startTransformByQ_cancellation_guards :
    (∀ k, k ≤ 0 → "uploadPayload" ∉ (runStartTransformByQ k).1 ∧
      (runStartTransformByQ k).2 = true) ∧
    (∀ k, k ≤ 1 → "startJob" ∉ (runStartTransformByQ k).1 ∧
      (runStartTransformByQ k).2 = true) ∧
    (∀ k, k ≤ 2 → "pollTransformationJob.planReady" ∉ (runStartTransformByQ k).1 ∧
      "getTransformationPlan" ∉ (runStartTransformByQ k).1 ∧
      (runStartTransformByQ k).2 = true) ∧
    (∀ k, k ≤ 3 → "pollTransformationJob.downloadReady" ∉ (runStartTransformByQ k).1 ∧
      (runStartTransformByQ k).2 = true) ∧
    runStartTransformByQ 4 =
      (["uploadPayload", "startJob", "pollTransformationJob.planReady",
        "getTransformationPlan", "pollTransformationJob.downloadReady"], false) := by
  decide

/-- C8 witness: cancellation observable from the second check onwards stops the
job-start step and everything after it, via
`startTransformByQ_cancellation_guards`. -/
theorem startTransformByQ_cancellation_guards_witness :
    "startJob" ∉ (runStartTransformByQ 1).1 ∧ (runStartTransformByQ 1).2 = true :=
  startTransformByQ_cancellation_guards.2.1 1 (by decide)

/-- Every character encodes to at least one character. -/
theorem encodeHTMLChar_length_pos (c : Char) : 1 ≤ (encodeHTMLChar c).length := by
  unfold encodeHTMLChar
  split_ifs <;> simp

/-- An HTML-significant character encodes to at least two characters. -/
theorem encodeHTMLChar_length_of_significant (c : Char) (h : isHTMLSignificant c) :
    2 ≤ (encodeHTMLChar c).length := by
  rcases h with h | h | h <;> subst h <;> decide

/-- Encoding never shortens a character list. -/
theorem length_le_encodeHTML_flatMap (l : List Char) :
    l.length ≤ (l.flatMap encodeHTMLChar).length := by
  induction l with
  | nil => simp
  | cons c l ih =>
    have hc := encodeHTMLChar_length_pos c
    simp only [List.flatMap_cons, List.length_append, List.length_cons]
    omega

/-- Encoding a list holding an HTML-significant character strictly lengthens it. -/
theorem length_lt_encodeHTML_flatMap (l : List Char) (c : Char) (hc : c ∈ l)
    (hs : isHTMLSignificant c) : l.length < (l.flatMap encodeHTMLChar).length := by
  induction l with
  | nil => cases hc
  | cons a l ih =>
    simp only [List.flatMap_cons, List.length_append, List.length_cons]
    rcases List.mem_cons.mp hc with h | h
    · have h2 := encodeHTMLChar_length_of_significant c hs
      rw [h] at h2
      have h3 := length_le_encodeHTML_flatMap l
      omega
    · have h2 := ih h
      have h3 := encodeHTMLChar_length_pos a
      omega

/-- Encoding a string holding an HTML-significant character changes it. -/
theorem encodeHTML_ne_of_significant (s : String) (c : Char) (hc : c ∈ s.data)
    (hs : isHTMLSignificant c) : encodeHTML s ≠ s := by
  intro he
  have h2 : s.data.flatMap encodeHTMLChar = s.data := congrArg String.data he
  have hl := length_lt_encodeHTML_flatMap s.data c hc hs
  rw [h2] at hl
  exact absurd hl (lt_irrefl _)

/-- C10: on the success path (remote start succeeds, no cancellation observed),
`startTransformationJob` stores the HTML-encoded service job id in the job
state while returning the raw id to the caller; consequently, whenever the
service id holds an HTML-significant character, the stored identifier differs
from the one returned for the subsequent remote calls. -/
theorem startTransformationJob_stores_encoded_id (st : TransformByQState)
    (serviceJobId : String) (h : st.status ≠ TransformByQStatus.Cancelled) :
    (startTransformationJob st false serviceJobId).st.jobId = encodeHTML serviceJobId ∧
    (startTransformationJob st false serviceJobId).outcome =
      StartJobOutcome.ok serviceJobId ∧
    ((∃ c ∈ serviceJobId.data, isHTMLSignificant c) →
      (startTransformationJob st false serviceJobId).st.jobId ≠ serviceJobId) := by
  have hrun : startTransformationJob st false serviceJobId =
      { outcome := StartJobOutcome.ok serviceJobId,
        st := st.setJobId (encodeHTML serviceJobId) } := by
    simp [startTransformationJob, TransformByQState.isCancelled,
      TransformByQState.setJobId, h]
  refine ⟨by rw [hrun]; rfl, by rw [hrun], ?_⟩
  rintro ⟨c, hc, hs⟩
  rw [hrun]
  exact encodeHTML_ne_of_significant serviceJobId c hc hs

/-- C10 witness: the service id `a<b` is stored HTML-encoded and differs from
the raw id returned to the caller, via `startTransformationJob_stores_encoded_id`. -/
theorem startTransformationJob_stores_encoded_id_witness :
    (startTransformationJob ⟨TransformByQStatus.Running, "", "", "", "", ""⟩
      false "a<b").st.jobId = encodeHTML "a<b" ∧
    (startTransformationJob ⟨TransformByQStatus.Running, "", "", "", "", ""⟩
      false "a<b").outcome = StartJobOutcome.ok "a<b" ∧
    (startTransformationJob ⟨TransformByQStatus.Running, "", "", "", "", ""⟩
      false "a<b").st.jobId ≠ "a<b" := by
  have h := startTransformationJob_stores_encoded_id
    ⟨TransformByQStatus.Running, "", "", "", "", ""⟩ "a<b" (by decide)
  exact ⟨h.1, h.2.1, h.2.2 ⟨'<', by decide, by decide⟩⟩
